import Mathlib

/-!
Verification development for the pump.fun token watcher (src/main.py).

The program is a single asyncio script.  We shallowly embed the parts the
claims are about:

* `JsonVal` / `Message` — decoded JSON payloads (scalar fields only, which is
  all the program reads); `Message` is an association list in insertion order,
  mirroring a Python dict.
* `TokenRow` / `RawTxRow` — one row of the `tokens` resp. `raw_txs` SQLite
  tables; `insertTokenOrIgnore` embeds `INSERT OR IGNORE INTO tokens`,
  `insertRawTx` embeds `INSERT INTO raw_txs` under a given per-connection
  foreign-key setting.
* `AppState` — the in-memory state of `WebSocketManager` (active_tokens,
  pending_subscriptions, reconnect_attempts), the `stats` dict, the two
  tables, and the trace of subscription commands sent on the current
  connection.
* `processMessage` — one iteration of the ingestion loop body of `main`
  (src/main.py lines 206-294).
* `connectSuccess` / `drain` — the success path of `WebSocketManager.connect`
  together with `initial_subscriptions`, and one pass of
  `subscription_handler` over the pending queue.
* the `Backoff` section — the retry-delay state of `WebSocketManager.connect`
  over the reals, since the source uses `math.exp`.
-/

/-- Scalar JSON values as decoded by `json.loads`.  The program only ever
reads scalar fields from inbound messages, so arrays and nested objects are
not modelled.  Numbers are represented exactly as rationals. -/
inductive JsonVal where
  | null : JsonVal
  | num (q : ℚ) : JsonVal
  | str (s : String) : JsonVal
  | bool (b : Bool) : JsonVal
deriving DecidableEq, Repr

/-- A decoded JSON object (a Python dict) as an association list with unique
keys, in insertion order. -/
abbrev Message : Type := List (String × JsonVal)

/-- Lookup of a key in a decoded message: `data.get(k)` and `data[k]`.
Decoded dicts have unique keys, looked up here front to back. -/
def getKey : Message → String → Option JsonVal
  | [], _ => none
  | p :: rest, k => if p.1 == k then some p.2 else getKey rest k

/-- Membership test `k in data`. -/
def hasKey (data : Message) (k : String) : Bool :=
  (getKey data k).isSome

/-- Python dict assignment `data[k] = v`: replaces the value in place when the
key exists, otherwise appends the new pair (Python dicts keep insertion
order). -/
def setKey : Message → String → JsonVal → Message
  | [], k, v => [(k, v)]
  | p :: rest, k, v => if p.1 == k then (k, v) :: rest else p :: setKey rest k v

/-- Python truthiness of a scalar JSON value, as used by the idiom
`data.get(k, 0) or 0`: `None`, `0`, the empty string and `False` are falsy. -/
def pyTruthy : JsonVal → Bool
  | JsonVal.null => false
  | JsonVal.num q => !(q == 0)
  | JsonVal.str s => !(s == "")
  | JsonVal.bool b => b

/-- Base-10 value of a list of digit characters. -/
def digitsVal (cs : List Char) : ℕ :=
  cs.foldl (fun n c => n * 10 + (c.toNat - 48)) 0

/-- Decimal literals accepted by Python `float()` restricted to the forms this
development needs: optional sign, integer digits, optional fractional part
(Python additionally accepts exponents, `inf`, `nan`, underscores and
surrounding whitespace, none of which occur here).  Returns `none` exactly
when `float()` raises `ValueError` on such a literal. -/
def parseFloatLit (s : String) : Option ℚ :=
  let go : List Char → Option ℚ := fun cs =>
    let intPart := cs.takeWhile Char.isDigit
    let rest := cs.dropWhile Char.isDigit
    match rest with
    | [] => if intPart.isEmpty then none else some (digitsVal intPart)
    | '.' :: frac =>
      if frac.all Char.isDigit && (!intPart.isEmpty || !frac.isEmpty) then
        some ((digitsVal intPart : ℚ) + (digitsVal frac : ℚ) / (10 ^ frac.length))
      else none
    | _ => none
  match s.toList with
  | '-' :: cs => (go cs).map (fun q => -q)
  | '+' :: cs => go cs
  | cs => go cs

/-- Python `float(v)` on a scalar JSON value: numbers pass through, booleans
become 0/1, numeric strings parse, and `None` (`TypeError`) or a non-numeric
string (`ValueError`) raise — modelled as `Except.error`. -/
def pyFloat : JsonVal → Except Unit ℚ
  | JsonVal.num q => Except.ok q
  | JsonVal.bool b => Except.ok (if b then 1 else 0)
  | JsonVal.str s =>
    match parseFloatLit s with
    | some q => Except.ok q
    | none => Except.error ()
  | JsonVal.null => Except.error ()

/-- The numeric-field idiom of the loop, `float(data.get(k, 0) or 0)`
(src/main.py lines 221-227): an absent or falsy value (None, 0, empty string,
False) yields 0, anything else goes through `float()`. -/
def getNumField (data : Message) (k : String) : Except Unit ℚ :=
  let v := (getKey data k).getD (JsonVal.num 0)
  if pyTruthy v then pyFloat v else Except.ok 0

/-- The float-coerced and defaulted fields extracted by the loop before any
database write (src/main.py lines 218-228).  `signature`, `uri` and `pool` are
also read there but never stored, and `mint`, `txType`, `name`, `symbol` and
`initialBuy` are read without `float()` coercion where they are used. -/
structure Fields where
  trader_pubkey : JsonVal
  token_amount : ℚ
  sol_amount : ℚ
  new_token_balance : ℚ
  bonding_curve_key : JsonVal
  v_tokens_bc : ℚ
  v_sol_bc : ℚ
  market_cap_sol : ℚ
deriving DecidableEq, Repr

/-- Field extraction (src/main.py lines 218-228).  Any failing `float()` call
raises before the database is touched; the exception is caught by the generic
handler at line 293. -/
def extractFields (data : Message) : Except Unit Fields := do
  let trader_pubkey := (getKey data "traderPublicKey").getD JsonVal.null
  let token_amount ← getNumField data "tokenAmount"
  let sol_amount ← getNumField data "solAmount"
  let new_token_balance ← getNumField data "newTokenBalance"
  let bonding_curve_key := (getKey data "bondingCurveKey").getD JsonVal.null
  let v_tokens_bc ← getNumField data "vTokensInBondingCurve"
  let v_sol_bc ← getNumField data "vSolInBondingCurve"
  let market_cap_sol ← getNumField data "marketCapSol"
  pure {
    trader_pubkey := trader_pubkey,
    token_amount := token_amount,
    sol_amount := sol_amount,
    new_token_balance := new_token_balance,
    bonding_curve_key := bonding_curve_key,
    v_tokens_bc := v_tokens_bc,
    v_sol_bc := v_sol_bc,
    market_cap_sol := market_cap_sol }

/-- One row of the `tokens` table (src/main.py lines 51-59).  The stored
values are the Python values bound by the insert at lines 239-250:
`initial_sol_liquidity` receives `data.get('initialBuy', 0)` uncoerced, and
`name`/`symbol` receive `data.get('name', '')` / `data.get('symbol', '')`, so
these are kept as raw JSON values. -/
structure TokenRow where
  mint : JsonVal
  timestamp : Int
  initial_sol_liquidity : JsonVal
  name : JsonVal
  symbol : JsonVal
deriving DecidableEq, Repr

/-- One row of the `raw_txs` table (src/main.py lines 64-80), with the values
bound by the insert at lines 261-282; the numeric columns always receive the
`float()`-coerced values. -/
structure RawTxRow where
  mint : JsonVal
  timestamp : Int
  traderPublicKey : JsonVal
  tx_type : JsonVal
  token_amount : ℚ
  sol_amount : ℚ
  new_token_balance : ℚ
  bondingCurveKey : JsonVal
  vTokensInBondingCurve : ℚ
  vSolInBondingCurve : ℚ
  marketCapSol : ℚ
deriving DecidableEq, Repr

/-- `INSERT OR IGNORE INTO tokens` (src/main.py lines 239-250): since `mint`
is the primary key, the row is inserted only when no row with the same mint
exists; the returned flag is SQLite's report of whether a row changed. -/
def insertTokenOrIgnore (tokens : List TokenRow) (row : TokenRow) : List TokenRow × Bool :=
  if ∃ r ∈ tokens, r.mint = row.mint then (tokens, false) else (tokens ++ [row], true)

/-- `INSERT INTO raw_txs` (src/main.py lines 261-282) under a given
per-connection `foreign_keys` setting: with enforcement on, a mint absent from
`tokens` raises IntegrityError (the ConstraintError of the spec); otherwise
the row is appended unconditionally. -/
def insertRawTx (fkOn : Bool) (tokens : List TokenRow) (txs : List RawTxRow)
    (row : RawTxRow) : Except Unit (List RawTxRow) :=
  if fkOn ∧ ¬ ∃ r ∈ tokens, r.mint = row.mint then Except.error ()
  else Except.ok (txs ++ [row])

/-- SQLite's `PRAGMA foreign_keys` is a per-connection setting, off by
default.  `initialize_database` turns it on (line 46) only for its own
short-lived connection; the ingestion loop opens a fresh connection per
message (line 230) and never sets the pragma, so its inserts run with
enforcement off. -/
def mainLoopForeignKeysOn : Bool := false

/-- Subscription commands sent over the websocket (src/main.py lines 129-132
and 145). -/
inductive Cmd where
  | subscribeNewToken : Cmd
  | subscribeTokenTrade (mint : JsonVal) : Cmd
deriving DecidableEq, Repr

/-- The mutable state of the program: the two tables, `WebSocketManager`'s
`active_tokens` (kept as an insertion-ordered duplicate-free list),
`pending_subscriptions` queue and `reconnect_attempts`, the trace of
subscription commands sent on the current connection, and the two `stats`
counters of `main`. -/
structure AppState where
  tokens : List TokenRow
  rawTxs : List RawTxRow
  active : List JsonVal
  pending : List JsonVal
  sentOnConn : List Cmd
  reconnectAttempts : ℕ
  tokenCreations : ℕ
  processedTxs : ℕ
deriving DecidableEq, Repr

/-- Fresh process state: empty database, `WebSocketManager.__init__`
(src/main.py lines 94-98) and zeroed stats (lines 197-200). -/
def emptyState : AppState :=
  { tokens := [], rawTxs := [], active := [], pending := [], sentOnConn := [],
    reconnectAttempts := 0, tokenCreations := 0, processedTxs := 0 }

/-- `WebSocketManager.subscribe_token` (src/main.py lines 155-157): puts the
mint on the pending queue unconditionally. -/
def subscribe_token (st : AppState) (mint : JsonVal) : AppState :=
  { st with pending := st.pending ++ [mint] }

/-- One item of the inner loop of `WebSocketManager.subscription_handler`
(src/main.py lines 126-133): a mint not yet in `active_tokens` gets a
subscribeTokenTrade command and is marked active; an already-active mint is
skipped. -/
def drainStep (st : AppState) (mint : JsonVal) : AppState :=
  if mint ∈ st.active then st
  else
    { st with sentOnConn := st.sentOnConn ++ [Cmd.subscribeTokenTrade mint],
              active := st.active ++ [mint] }

/-- The handler consuming a list of queued mints in order. -/
def drainList : List JsonVal → AppState → AppState
  | [], st => st
  | m :: rest, st => drainList rest (drainStep st m)

/-- One full pass of `subscription_handler`'s inner `while not empty` loop:
consumes the whole pending queue. -/
def drain (st : AppState) : AppState :=
  drainList st.pending { st with pending := [] }

/-- The success path of `WebSocketManager.connect` (src/main.py lines
105-112) together with `initial_subscriptions` (lines 139-153), which runs to
completion before `connect` returns: `reconnect_attempts` is reset, the
subscribeNewToken command is the first send on the fresh connection, and
every mint of the `tokens` table is enqueued via `subscribe_token`.
`active_tokens` is not touched. -/
def connectSuccess (st : AppState) : AppState :=
  { st with reconnectAttempts := 0,
            sentOnConn := [Cmd.subscribeNewToken],
            pending := st.pending ++ st.tokens.map (fun r => r.mint) }

/-- How the loop iteration ended: skipped by the required-field check
(line 215), aborted by a raised exception caught at lines 293-294, or ran to
the end of the body. -/
inductive Outcome where
  | skippedValidation : Outcome
  | caughtError : Outcome
  | ok : Outcome
deriving DecidableEq, Repr

/-- One iteration of the ingestion loop body of `main` on an already-decoded
message (src/main.py lines 208-294): stamp the receive time into the dict,
check that `mint` and `txType` are present, extract and coerce the optional
fields, then for a `create` message insert into `tokens` (OR IGNORE), enqueue
the mint and bump the creation counter, and for `create`/`buy`/`sell` append
the raw transaction row, bumping the processed counter for buys and sells.
Exceptions raised anywhere in the body are caught by the generic handler, so
the iteration never propagates an error. -/
def processMessage (data0 : Message) (receive_time : Int) (st : AppState) :
    AppState × Outcome :=
  let data := setKey data0 "timestamp" (JsonVal.num receive_time)
  if !(hasKey data "mint" && hasKey data "txType") then
    (st, Outcome.skippedValidation)
  else
    match extractFields data with
    | Except.error _ => (st, Outcome.caughtError)
    | Except.ok f =>
      let mint := (getKey data "mint").getD JsonVal.null
      let tx_type := (getKey data "txType").getD JsonVal.null
      let st1 :=
        if tx_type = JsonVal.str "create" then
          let name := (getKey data "name").getD (JsonVal.str "")
          let symbol := (getKey data "symbol").getD (JsonVal.str "")
          let row : TokenRow :=
            { mint := mint, timestamp := receive_time,
              initial_sol_liquidity := (getKey data "initialBuy").getD (JsonVal.num 0),
              name := name, symbol := symbol }
          let stA := { st with tokens := (insertTokenOrIgnore st.tokens row).1 }
          let stB := subscribe_token stA mint
          { stB with tokenCreations := stB.tokenCreations + 1 }
        else st
      if tx_type = JsonVal.str "create" ∨ tx_type = JsonVal.str "buy" ∨
          tx_type = JsonVal.str "sell" then
        let row : RawTxRow :=
          { mint := mint, timestamp := receive_time,
            traderPublicKey := f.trader_pubkey, tx_type := tx_type,
            token_amount := f.token_amount, sol_amount := f.sol_amount,
            new_token_balance := f.new_token_balance,
            bondingCurveKey := f.bonding_curve_key,
            vTokensInBondingCurve := f.v_tokens_bc,
            vSolInBondingCurve := f.v_sol_bc,
            marketCapSol := f.market_cap_sol }
        match insertRawTx mainLoopForeignKeysOn st1.tokens st1.rawTxs row with
        | Except.error _ => (st1, Outcome.caughtError)
        | Except.ok txs1 =>
          if tx_type = JsonVal.str "buy" ∨ tx_type = JsonVal.str "sell" then
            ({ st1 with rawTxs := txs1, processedTxs := st1.processedTxs + 1 },
              Outcome.ok)
          else ({ st1 with rawTxs := txs1 }, Outcome.ok)
      else (st1, Outcome.ok)

/-- The routing-correctness scenario message of the spec:
a creation message for mint ABC with name Foo, symbol FOO, initialBuy 5. -/
def msgC4 : Message :=
  [("mint", JsonVal.str "ABC"), ("txType", JsonVal.str "create"),
   ("name", JsonVal.str "Foo"), ("symbol", JsonVal.str "FOO"),
   ("initialBuy", JsonVal.num 5)]

/-- A minimal creation message for a given mint (only the required fields). -/
def createMsg (m : JsonVal) : Message :=
  [("mint", m), ("txType", JsonVal.str "create")]

/-- The trade-without-prior-creation scenario message of the spec: a buy for
the never-seen mint XYZ. -/
def msgC2 : Message :=
  [("mint", JsonVal.str "XYZ"), ("txType", JsonVal.str "buy"),
   ("solAmount", JsonVal.num 2)]

/-- A buy message whose solAmount is JSON null and whose other numeric fields
are absent. -/
def msgC8buy : Message :=
  [("mint", JsonVal.str "M"), ("txType", JsonVal.str "buy"),
   ("solAmount", JsonVal.null)]

/-- A creation message with no optional fields at all. -/
def msgC8create : Message :=
  [("mint", JsonVal.str "M"), ("txType", JsonVal.str "create")]

/-- A creation message whose initialBuy is JSON null. -/
def msgC8createNull : Message :=
  [("mint", JsonVal.str "M"), ("txType", JsonVal.str "create"),
   ("initialBuy", JsonVal.null)]

/-- A creation message whose initialBuy is present but not coercible to a
float. -/
def msgC10 : Message :=
  [("mint", JsonVal.str "ABC"), ("txType", JsonVal.str "create"),
   ("initialBuy", JsonVal.str "abc")]

/-- A buy message whose tokenAmount is present but not coercible to a
float. -/
def msgC10buy : Message :=
  [("mint", JsonVal.str "A"), ("txType", JsonVal.str "buy"),
   ("tokenAmount", JsonVal.str "abc")]

/-- A tokens-table row for mint A, as produced by a bare creation message. -/
def tokenRowA : TokenRow :=
  { mint := JsonVal.str "A", timestamp := 1,
    initial_sol_liquidity := JsonVal.num 0,
    name := JsonVal.str "", symbol := JsonVal.str "" }

/-- State after the first connection: connect succeeds on a fresh process,
the queue is drained, one creation message for mint A is processed, and the
queue is drained again (subscribing A). -/
def c1AfterFirstConn : AppState :=
  drain ((processMessage (createMsg (JsonVal.str "A")) 1
    (drain (connectSuccess emptyState))).1)

/-- State after the connection then drops and `connect` succeeds again,
followed by a full drain of the pending queue on the new connection. -/
def c1AfterReconnect : AppState :=
  drain (connectSuccess c1AfterFirstConn)

/-- A manager state whose subscribed set already holds mint A. -/
def stC6 : AppState := { emptyState with active := [JsonVal.str "A"] }

namespace Backoff

noncomputable section

/-- Config.INITIAL_RECONNECT_DELAY (src/main.py line 17). -/
def INITIAL_RECONNECT_DELAY : ℝ := 1

/-- Config.MAX_RECONNECT_DELAY (src/main.py line 18). -/
def MAX_RECONNECT_DELAY : ℝ := 60

/-- The backoff-relevant state of `WebSocketManager.connect`: the local
`delay` variable and `self.reconnect_attempts`.  The source computes delays
with `math.exp`, modelled here over the reals. -/
structure BackoffState where
  delay : ℝ
  attempts : ℕ

/-- One failed connection attempt (src/main.py lines 113-120): the current
`delay` is slept, then `reconnect_attempts` is incremented and
`delay = min(MAX_RECONNECT_DELAY, INITIAL_RECONNECT_DELAY * exp(attempts))`
is recomputed from the incremented counter. -/
def failStep (st : BackoffState) : BackoffState :=
  { delay := min MAX_RECONNECT_DELAY
      (INITIAL_RECONNECT_DELAY * Real.exp ((st.attempts : ℝ) + 1)),
    attempts := st.attempts + 1 }

/-- State at entry of `connect()`: the local delay starts at the initial
delay (line 102); `reconnect_attempts` is 0 both at process start (line 97)
and after any prior success (line 107), and `connect` only returns on
success, so it is always 0 here. -/
def connectEntry : BackoffState :=
  { delay := INITIAL_RECONNECT_DELAY, attempts := 0 }

/-- Backoff state after n consecutive failed attempts within one `connect()`
call. -/
def stateAfterFailures : ℕ → BackoffState
  | 0 => connectEntry
  | n + 1 => failStep (stateAfterFailures n)

/-- The delay slept after the n-th consecutive failed attempt (the sleep at
line 115 happens before the counter increment and delay update), i.e. the
wait before retry attempt n + 1. -/
def sleptBeforeRetry (n : ℕ) : ℝ := (stateAfterFailures (n - 1)).delay

/-- Modelled from the spec's words, for comparison with the code's schedule:
the claim asserts that the delay before retry n equals
min(maxDelay, initialDelay * e^n). -/
def specClaimDelay (n : ℕ) : ℝ :=
  min MAX_RECONNECT_DELAY (INITIAL_RECONNECT_DELAY * Real.exp (n : ℝ))

end

end Backoff

/-- Setting one key leaves lookups of other keys unchanged. -/
theorem getKey_setKey (data : Message) (k k' : String) (v : JsonVal)
    (hne : k' ≠ k) : getKey (setKey data k v) k' = getKey data k' := by
  have hkk : (k == k') = false := beq_eq_false_iff_ne.mpr (Ne.symm hne)
  induction data with
  | nil => simp [setKey, getKey, hkk]
  | cons p rest ih =>
    by_cases hp : p.1 = k
    · have h1 : (p.1 == k) = true := by simp [hp]
      have h3 : (p.1 == k') = false := by rw [hp]; exact hkk
      simp [setKey, getKey, h1, hkk, h3]
    · have h1 : (p.1 == k) = false := by simp [hp]
      simp [setKey, getKey, h1, ih]

/-- The extracted and coerced fields do not depend on the receive-time stamp
written into the dict at line 211. -/
theorem extractFields_setKey_timestamp (data : Message) (v : JsonVal) :
    extractFields (setKey data "timestamp" v) = extractFields data := by
  simp only [extractFields, getNumField,
    getKey_setKey data "timestamp" "traderPublicKey" v (by decide),
    getKey_setKey data "timestamp" "tokenAmount" v (by decide),
    getKey_setKey data "timestamp" "solAmount" v (by decide),
    getKey_setKey data "timestamp" "newTokenBalance" v (by decide),
    getKey_setKey data "timestamp" "bondingCurveKey" v (by decide),
    getKey_setKey data "timestamp" "vTokensInBondingCurve" v (by decide),
    getKey_setKey data "timestamp" "vSolInBondingCurve" v (by decide),
    getKey_setKey data "timestamp" "marketCapSol" v (by decide)]

/-- The handler never removes ids from the subscribed set. -/
theorem drainList_active_sub (l : List JsonVal) (st : AppState) :
    st.active ⊆ (drainList l st).active := by
  induction l generalizing st with
  | nil => simp [drainList]
  | cons a rest ih =>
    intro m hm
    apply ih (drainStep st a)
    unfold drainStep
    split
    · exact hm
    · simp [hm]

/-- Draining sends no subscribe command for an id already in the subscribed
set: its command count on the connection is unchanged. -/
theorem drainList_count_mem_active (l : List JsonVal) (st : AppState)
    (m : JsonVal) (h : m ∈ st.active) :
    ((drainList l st).sentOnConn).count (Cmd.subscribeTokenTrade m) =
      st.sentOnConn.count (Cmd.subscribeTokenTrade m) := by
  induction l generalizing st with
  | nil => rfl
  | cons a rest ih =>
    show ((drainList rest (drainStep st a)).sentOnConn).count _ = _
    by_cases ha : a ∈ st.active
    · rw [ih (drainStep st a) (by simp [drainStep, ha, h])]
      simp [drainStep, ha]
    · have hne : a ≠ m := fun he => ha (he ▸ h)
      have hz : List.count (Cmd.subscribeTokenTrade m)
          [Cmd.subscribeTokenTrade a] = 0 := by
        rw [List.count_eq_zero]
        simp
        exact fun he => hne he.symm
      rw [ih (drainStep st a) (by simp [drainStep, ha, h])]
      simp [drainStep, ha, List.count_append, hz]

/-- Draining a queue that contains an id not yet subscribed sends exactly one
subscribe command for it, however many times it occurs in the queue. -/
theorem drainList_count_once (l : List JsonVal) (st : AppState)
    (m : JsonVal) (hna : m ∉ st.active) (hm : m ∈ l) :
    ((drainList l st).sentOnConn).count (Cmd.subscribeTokenTrade m) =
      st.sentOnConn.count (Cmd.subscribeTokenTrade m) + 1 := by
  induction l generalizing st with
  | nil => cases hm
  | cons a rest ih =>
    show ((drainList rest (drainStep st a)).sentOnConn).count _ = _
    by_cases ham : a = m
    · subst ham
      rw [drainList_count_mem_active rest (drainStep st a) a
        (by simp [drainStep, hna])]
      simp [drainStep, hna, List.count_append]
    · have hm' : m ∈ rest := by
        rcases List.mem_cons.mp hm with h | h
        · exact absurd h.symm ham
        · exact h
      by_cases ha : a ∈ st.active
      · rw [ih (drainStep st a) (by simp [drainStep, ha, hna]) hm']
        simp [drainStep, ha]
      · have hna' : m ∉ (drainStep st a).active := by
          simp [drainStep, ha]
          exact ⟨hna, fun he => ham he.symm⟩
        have hz : List.count (Cmd.subscribeTokenTrade m)
            [Cmd.subscribeTokenTrade a] = 0 := by
          rw [List.count_eq_zero]
          simp
          exact fun he => ham he.symm
        rw [ih (drainStep st a) hna' hm']
        simp [drainStep, ha, List.count_append, hz]

/-- The subscribed set stays duplicate-free across drains. -/
theorem drainList_nodup (l : List JsonVal) (st : AppState)
    (h : st.active.Nodup) : (drainList l st).active.Nodup := by
  induction l generalizing st with
  | nil => exact h
  | cons a rest ih =>
    apply ih
    unfold drainStep
    split
    · exact h
    · next ha => simp [List.nodup_append, h, ha]

namespace Backoff

/-- The attempt counter equals the number of failures so far. -/
theorem stateAfterFailures_attempts (n : ℕ) :
    (stateAfterFailures n).attempts = n := by
  induction n with
  | zero => rfl
  | succ k ih => simp [stateAfterFailures, failStep, ih]

/-- Closed form of the delay variable after at least one failure. -/
theorem stateAfterFailures_delay (n : ℕ) :
    (stateAfterFailures (n + 1)).delay =
      min MAX_RECONNECT_DELAY
        (INITIAL_RECONNECT_DELAY * Real.exp ((n : ℝ) + 1)) := by
  show (failStep (stateAfterFailures n)).delay = _
  simp [failStep, stateAfterFailures_attempts]

end Backoff

/-- C3 (counterexample): the delay slept after the first failed attempt is
the initial delay (1), not min(maxDelay, initialDelay * e^1) ≈ 2.72 as the
claim's formula demands. -/
theorem C3_counterexample :
    Backoff.sleptBeforeRetry 1 ≠ Backoff.specClaimDelay 1 := by
  have h1 : (2.7182818283 : ℝ) < Real.exp 1 := Real.exp_one_gt_d9
  have hs : Backoff.sleptBeforeRetry 1 = 1 := rfl
  have hc : Backoff.specClaimDelay 1 = Real.exp 1 := by
    unfold Backoff.specClaimDelay Backoff.MAX_RECONNECT_DELAY
      Backoff.INITIAL_RECONNECT_DELAY
    have h2 : Real.exp 1 < 2.7182818286 := Real.exp_one_lt_d9
    push_cast
    rw [one_mul]
    exact min_eq_right (by linarith)
  rw [hs, hc]
  intro he
  rw [← he] at h1
  norm_num at h1

/-- C3 (amended): within one connect() call the delay slept after the first
failed attempt is the initial delay, the delay slept after the n-th failed
attempt (n ≥ 2) is min(maxDelay, initialDelay * e^(n-1)), and the attempt
counter is reset to zero on every successful connection. -/
theorem C3_backoff_schedule (n : ℕ) (hn : 1 ≤ n) :
    Backoff.sleptBeforeRetry n =
      (if n = 1 then Backoff.INITIAL_RECONNECT_DELAY
       else min Backoff.MAX_RECONNECT_DELAY
         (Backoff.INITIAL_RECONNECT_DELAY * Real.exp ((n - 1 : ℕ) : ℝ))) ∧
    ∀ st : AppState, (connectSuccess st).reconnectAttempts = 0 := by
  refine ⟨?_, fun st => rfl⟩
  by_cases h1 : n = 1
  · subst h1
    rfl
  · rw [if_neg h1]
    obtain ⟨m, rfl⟩ : ∃ m, n = m + 2 := ⟨n - 2, by omega⟩
    have h2 : m + 2 - 1 = m + 1 := rfl
    unfold Backoff.sleptBeforeRetry
    rw [h2, Backoff.stateAfterFailures_delay]
    push_cast
    ring_nf

/-- Witness for C3_backoff_schedule at n = 2. -/
theorem C3_backoff_schedule_witness :
    1 ≤ 2 ∧
    (Backoff.sleptBeforeRetry 2 =
      (if 2 = 1 then Backoff.INITIAL_RECONNECT_DELAY
       else min Backoff.MAX_RECONNECT_DELAY
         (Backoff.INITIAL_RECONNECT_DELAY * Real.exp ((2 - 1 : ℕ) : ℝ))) ∧
    ∀ st : AppState, (connectSuccess st).reconnectAttempts = 0) :=
  ⟨by norm_num, C3_backoff_schedule 2 (by norm_num)⟩

/-- C1 (code bug): on the first connection a creation for mint A is
subscribed, but after a reconnect the only command sent on the new connection
is subscribeNewToken — A is re-enqueued from the store yet skipped by the
handler because the subscribed set is never cleared, so the store-known mint
is not re-subscribed on the new connection. -/
theorem C1_lost_resubscription :
    c1AfterFirstConn.sentOnConn =
      [Cmd.subscribeNewToken, Cmd.subscribeTokenTrade (JsonVal.str "A")] ∧
    c1AfterFirstConn.tokens.map (fun r => r.mint) = [JsonVal.str "A"] ∧
    c1AfterFirstConn.active = [JsonVal.str "A"] ∧
    c1AfterReconnect.sentOnConn = [Cmd.subscribeNewToken] ∧
    c1AfterReconnect.active = [JsonVal.str "A"] :=
  ⟨rfl, rfl, rfl, rfl, rfl⟩

/-- C2 (code bug): a buy for the never-seen mint XYZ is stored as an orphan
raw_txs row with no constraint failure, because the foreign-key pragma is set
only on the initialization connection; the last conjunct shows the same
insert would be rejected under an enforcing connection. -/
theorem C2_orphan_row :
    (processMessage msgC2 11 emptyState).2 = Outcome.ok ∧
    (processMessage msgC2 11 emptyState).1.tokens = [] ∧
    (processMessage msgC2 11 emptyState).1.rawTxs =
      [{ mint := JsonVal.str "XYZ", timestamp := 11,
         traderPublicKey := JsonVal.null, tx_type := JsonVal.str "buy",
         token_amount := 0, sol_amount := 2, new_token_balance := 0,
         bondingCurveKey := JsonVal.null, vTokensInBondingCurve := 0,
         vSolInBondingCurve := 0, marketCapSol := 0 }] ∧
    insertRawTx true emptyState.tokens emptyState.rawTxs
      { mint := JsonVal.str "XYZ", timestamp := 11,
        traderPublicKey := JsonVal.null, tx_type := JsonVal.str "buy",
        token_amount := 0, sol_amount := 2, new_token_balance := 0,
        bondingCurveKey := JsonVal.null, vTokensInBondingCurve := 0,
        vSolInBondingCurve := 0, marketCapSol := 0 } = Except.error () := by
  refine ⟨rfl, rfl, rfl, ?_⟩
  simp [insertRawTx, emptyState]

/-- C4: processing the scenario creation message for a previously unseen mint
ABC appends exactly one tokens row (ABC, Foo, FOO, initialBuy 5), then
exactly one raw_txs row for ABC with kind create, enqueues ABC for
subscription, increments the creation counter by one and leaves the trade
counter unchanged. -/
theorem C4_routing (st : AppState) (t : Int)
    (h : ¬ ∃ r ∈ st.tokens, r.mint = JsonVal.str "ABC") :
    (processMessage msgC4 t st).1.tokens = st.tokens ++
      [{ mint := JsonVal.str "ABC", timestamp := t,
         initial_sol_liquidity := JsonVal.num 5, name := JsonVal.str "Foo",
         symbol := JsonVal.str "FOO" }] ∧
    (processMessage msgC4 t st).1.rawTxs = st.rawTxs ++
      [{ mint := JsonVal.str "ABC", timestamp := t,
         traderPublicKey := JsonVal.null, tx_type := JsonVal.str "create",
         token_amount := 0, sol_amount := 0, new_token_balance := 0,
         bondingCurveKey := JsonVal.null, vTokensInBondingCurve := 0,
         vSolInBondingCurve := 0, marketCapSol := 0 }] ∧
    (processMessage msgC4 t st).1.pending = st.pending ++ [JsonVal.str "ABC"] ∧
    (processMessage msgC4 t st).1.tokenCreations = st.tokenCreations + 1 ∧
    (processMessage msgC4 t st).1.processedTxs = st.processedTxs ∧
    (processMessage msgC4 t st).2 = Outcome.ok := by
  have key : processMessage msgC4 t st =
      ({ st with
          tokens := st.tokens ++
            [{ mint := JsonVal.str "ABC", timestamp := t,
               initial_sol_liquidity := JsonVal.num 5,
               name := JsonVal.str "Foo", symbol := JsonVal.str "FOO" }],
          rawTxs := st.rawTxs ++
            [{ mint := JsonVal.str "ABC", timestamp := t,
               traderPublicKey := JsonVal.null,
               tx_type := JsonVal.str "create", token_amount := 0,
               sol_amount := 0, new_token_balance := 0,
               bondingCurveKey := JsonVal.null, vTokensInBondingCurve := 0,
               vSolInBondingCurve := 0, marketCapSol := 0 }],
          pending := st.pending ++ [JsonVal.str "ABC"],
          tokenCreations := st.tokenCreations + 1 }, Outcome.ok) := by
    simp [processMessage, msgC4, setKey, getKey, hasKey, extractFields,
      getNumField, pyTruthy, pyFloat, insertTokenOrIgnore, insertRawTx,
      subscribe_token, mainLoopForeignKeysOn, h]
    rfl
  rw [key]
  exact ⟨rfl, rfl, rfl, rfl, rfl, rfl⟩

/-- Witness for C4_routing on a fresh process state. -/
theorem C4_routing_witness :
    (¬ ∃ r ∈ emptyState.tokens, r.mint = JsonVal.str "ABC") ∧
    (processMessage msgC4 7 emptyState).2 = Outcome.ok :=
  ⟨by decide, (C4_routing emptyState 7 (by decide)).2.2.2.2.2⟩

/-- C5: inserting an entity row for a fresh mint appends it and reports an
insert; a second insert with the same mint is a no-op that reports no insert,
and the table keeps exactly one row for that mint, carrying the first
insert's attributes. -/
theorem C5_insert_if_absent (tokens : List TokenRow) (r1 r2 : TokenRow)
    (hm : r2.mint = r1.mint) (h : ¬ ∃ r ∈ tokens, r.mint = r1.mint) :
    insertTokenOrIgnore tokens r1 = (tokens ++ [r1], true) ∧
    insertTokenOrIgnore (tokens ++ [r1]) r2 = (tokens ++ [r1], false) ∧
    (tokens ++ [r1]).filter (fun r => r.mint == r1.mint) = [r1] := by
  refine ⟨?_, ?_, ?_⟩
  · unfold insertTokenOrIgnore
    rw [if_neg h]
  · unfold insertTokenOrIgnore
    rw [if_pos ⟨r1, by simp, hm.symm⟩]
  · rw [List.filter_append]
    have h1 : tokens.filter (fun r => r.mint == r1.mint) = [] := by
      rw [List.filter_eq_nil_iff]
      intro r hr
      simp
      exact fun he => h ⟨r, hr, he⟩
    simp [h1]

/-- Witness for C5_insert_if_absent: mint A inserted twice with different
attributes. -/
theorem C5_insert_if_absent_witness :
    ({ mint := JsonVal.str "A", timestamp := 5,
       initial_sol_liquidity := JsonVal.num 2, name := JsonVal.str "x",
       symbol := JsonVal.str "y" } : TokenRow).mint = tokenRowA.mint ∧
    (¬ ∃ r ∈ ([] : List TokenRow), r.mint = tokenRowA.mint) ∧
    insertTokenOrIgnore [] tokenRowA = ([tokenRowA], true) :=
  ⟨by decide, by decide,
    (C5_insert_if_absent [] tokenRowA
      { mint := JsonVal.str "A", timestamp := 5,
        initial_sol_liquidity := JsonVal.num 2, name := JsonVal.str "x",
        symbol := JsonVal.str "y" } (by decide) (by decide)).1⟩

/-- C6 (counterexample): subscribe_token enqueues unconditionally, so an id
already in the subscribed set is re-enqueued onto the pending queue,
contradicting the claim that such an id is never re-enqueued. -/
theorem C6_counterexample :
    JsonVal.str "A" ∈ stC6.active ∧
    (subscribe_token stC6 (JsonVal.str "A")).pending = [JsonVal.str "A"] := by
  decide

/-- C6 (amended): the subscribed set holds each id at most once; enqueueing
an id already in the subscribed set does re-enqueue it, but the drain filters
it so no subscribe command results; enqueueing an id not yet subscribed twice
before the drain runs produces exactly one subscribe command. -/
theorem C6_subscription_dedup (st : AppState) (m : JsonVal)
    (hnd : st.active.Nodup) :
    (drain st).active.Nodup ∧
    (m ∈ st.active →
      ((drain (subscribe_token st m)).sentOnConn).count
          (Cmd.subscribeTokenTrade m) =
        st.sentOnConn.count (Cmd.subscribeTokenTrade m)) ∧
    (m ∉ st.active →
      ((drain (subscribe_token (subscribe_token st m) m)).sentOnConn).count
          (Cmd.subscribeTokenTrade m) =
        st.sentOnConn.count (Cmd.subscribeTokenTrade m) + 1) := by
  refine ⟨drainList_nodup _ _ hnd, fun hm => ?_, fun hm => ?_⟩
  · exact drainList_count_mem_active _ _ _ hm
  · exact drainList_count_once _ _ _ hm (by simp [subscribe_token])

/-- Witness for C6_subscription_dedup on a state with mint A subscribed. -/
theorem C6_subscription_dedup_witness :
    stC6.active.Nodup ∧
    ((drain stC6).active.Nodup ∧
    (JsonVal.str "A" ∈ stC6.active →
      ((drain (subscribe_token stC6 (JsonVal.str "A"))).sentOnConn).count
          (Cmd.subscribeTokenTrade (JsonVal.str "A")) =
        stC6.sentOnConn.count (Cmd.subscribeTokenTrade (JsonVal.str "A"))) ∧
    (JsonVal.str "A" ∉ stC6.active →
      ((drain (subscribe_token (subscribe_token stC6 (JsonVal.str "A"))
          (JsonVal.str "A"))).sentOnConn).count
          (Cmd.subscribeTokenTrade (JsonVal.str "A")) =
        stC6.sentOnConn.count (Cmd.subscribeTokenTrade (JsonVal.str "A")) + 1)) :=
  ⟨by decide, C6_subscription_dedup stC6 (JsonVal.str "A") (by decide)⟩

/-- C7: a decodable message missing the mint field or the txType field is
skipped by the validation check: the state is returned unchanged (no store
write, no counter change) and the iteration ends without an error. -/
theorem C7_validation_skip (data : Message) (t : Int) (st : AppState)
    (h : getKey data "mint" = none ∨ getKey data "txType" = none) :
    processMessage data t st = (st, Outcome.skippedValidation) := by
  unfold processMessage
  have hm := getKey_setKey data "timestamp" "mint" (JsonVal.num t) (by decide)
  have ht := getKey_setKey data "timestamp" "txType" (JsonVal.num t) (by decide)
  rcases h with h | h
  · simp [hasKey, hm, ht, h]
  · simp [hasKey, hm, ht, h]

/-- Witness for C7_validation_skip: a message with a mint but no txType. -/
theorem C7_validation_skip_witness :
    (getKey ([("mint", JsonVal.str "A")] : Message) "mint" = none ∨
     getKey ([("mint", JsonVal.str "A")] : Message) "txType" = none) ∧
    processMessage ([("mint", JsonVal.str "A")] : Message) 0 emptyState =
      (emptyState, Outcome.skippedValidation) :=
  ⟨Or.inr rfl, C7_validation_skip _ 0 emptyState (Or.inr rfl)⟩

/-- C8 (counterexample): a creation message whose initialBuy is JSON null
stores null — not 0 — as the entity's initial liquidity, because
`data.get('initialBuy', 0)` defaults only when the key is absent and the
value is bound without `float()` coercion. -/
theorem C8_counterexample :
    (processMessage msgC8createNull 3 emptyState).1.tokens =
      [{ mint := JsonVal.str "M", timestamp := 3,
         initial_sol_liquidity := JsonVal.null, name := JsonVal.str "",
         symbol := JsonVal.str "" }] ∧
    JsonVal.null ≠ JsonVal.num 0 :=
  ⟨rfl, by decide⟩

/-- C8 (amended): the six numeric trade fields (tokenAmount, solAmount,
newTokenBalance, vTokensInBondingCurve, vSolInBondingCurve, marketCapSol) are
float-coerced with default 0 when absent or null, and optional string fields
default to null or the empty string without failing; the entity's initial
liquidity (initialBuy) however defaults to 0 only when absent and is stored
uncoerced, so a null initialBuy is stored as null. -/
theorem C8_defaulting (st : AppState) (t : Int)
    (h : ¬ ∃ r ∈ st.tokens, r.mint = JsonVal.str "M") :
    (∀ (data : Message) (k : String),
      getKey data k = none ∨ getKey data k = some JsonVal.null →
        getNumField data k = Except.ok 0) ∧
    (processMessage msgC8buy t st).1.rawTxs = st.rawTxs ++
      [{ mint := JsonVal.str "M", timestamp := t,
         traderPublicKey := JsonVal.null, tx_type := JsonVal.str "buy",
         token_amount := 0, sol_amount := 0, new_token_balance := 0,
         bondingCurveKey := JsonVal.null, vTokensInBondingCurve := 0,
         vSolInBondingCurve := 0, marketCapSol := 0 }] ∧
    (processMessage msgC8create t st).1.tokens = st.tokens ++
      [{ mint := JsonVal.str "M", timestamp := t,
         initial_sol_liquidity := JsonVal.num 0, name := JsonVal.str "",
         symbol := JsonVal.str "" }] ∧
    (processMessage msgC8createNull t st).1.tokens = st.tokens ++
      [{ mint := JsonVal.str "M", timestamp := t,
         initial_sol_liquidity := JsonVal.null, name := JsonVal.str "",
         symbol := JsonVal.str "" }] := by
  refine ⟨?_, ?_, ?_, ?_⟩
  · intro data k hk
    rcases hk with hk | hk <;> simp [getNumField, hk, pyTruthy]
  · have key : processMessage msgC8buy t st =
        ({ st with
            rawTxs := st.rawTxs ++
              [{ mint := JsonVal.str "M", timestamp := t,
                 traderPublicKey := JsonVal.null,
                 tx_type := JsonVal.str "buy", token_amount := 0,
                 sol_amount := 0, new_token_balance := 0,
                 bondingCurveKey := JsonVal.null, vTokensInBondingCurve := 0,
                 vSolInBondingCurve := 0, marketCapSol := 0 }],
            processedTxs := st.processedTxs + 1 }, Outcome.ok) := by
      simp [processMessage, msgC8buy, setKey, getKey, hasKey, extractFields,
        getNumField, pyTruthy, pyFloat, insertRawTx, mainLoopForeignKeysOn]
      rfl
    rw [key]
  · have key : processMessage msgC8create t st =
        ({ st with
            tokens := st.tokens ++
              [{ mint := JsonVal.str "M", timestamp := t,
                 initial_sol_liquidity := JsonVal.num 0,
                 name := JsonVal.str "", symbol := JsonVal.str "" }],
            rawTxs := st.rawTxs ++
              [{ mint := JsonVal.str "M", timestamp := t,
                 traderPublicKey := JsonVal.null,
                 tx_type := JsonVal.str "create", token_amount := 0,
                 sol_amount := 0, new_token_balance := 0,
                 bondingCurveKey := JsonVal.null, vTokensInBondingCurve := 0,
                 vSolInBondingCurve := 0, marketCapSol := 0 }],
            pending := st.pending ++ [JsonVal.str "M"],
            tokenCreations := st.tokenCreations + 1 }, Outcome.ok) := by
      simp [processMessage, msgC8create, setKey, getKey, hasKey,
        extractFields, getNumField, pyTruthy, pyFloat, insertTokenOrIgnore,
        insertRawTx, subscribe_token, mainLoopForeignKeysOn, h]
      rfl
    rw [key]
  · have key : processMessage msgC8createNull t st =
        ({ st with
            tokens := st.tokens ++
              [{ mint := JsonVal.str "M", timestamp := t,
                 initial_sol_liquidity := JsonVal.null,
                 name := JsonVal.str "", symbol := JsonVal.str "" }],
            rawTxs := st.rawTxs ++
              [{ mint := JsonVal.str "M", timestamp := t,
                 traderPublicKey := JsonVal.null,
                 tx_type := JsonVal.str "create", token_amount := 0,
                 sol_amount := 0, new_token_balance := 0,
                 bondingCurveKey := JsonVal.null, vTokensInBondingCurve := 0,
                 vSolInBondingCurve := 0, marketCapSol := 0 }],
            pending := st.pending ++ [JsonVal.str "M"],
            tokenCreations := st.tokenCreations + 1 }, Outcome.ok) := by
      simp [processMessage, msgC8createNull, setKey, getKey, hasKey,
        extractFields, getNumField, pyTruthy, pyFloat, insertTokenOrIgnore,
        insertRawTx, subscribe_token, mainLoopForeignKeysOn, h]
      rfl
    rw [key]

/-- Witness for C8_defaulting on a fresh process state. -/
theorem C8_defaulting_witness :
    (¬ ∃ r ∈ emptyState.tokens, r.mint = JsonVal.str "M") ∧
    (processMessage msgC8buy 4 emptyState).1.rawTxs = emptyState.rawTxs ++
      [{ mint := JsonVal.str "M", timestamp := 4,
         traderPublicKey := JsonVal.null, tx_type := JsonVal.str "buy",
         token_amount := 0, sol_amount := 0, new_token_balance := 0,
         bondingCurveKey := JsonVal.null, vTokensInBondingCurve := 0,
         vSolInBondingCurve := 0, marketCapSol := 0 }] :=
  ⟨by decide, (C8_defaulting emptyState 4 (by decide)).2.1⟩

/-- C9: a creation message for a mint that already has an entity row appends
a second raw_txs row of kind create (trade events are never deduplicated) but
adds no second tokens row. -/
theorem C9_duplicate_create (st : AppState) (t : Int) (m : JsonVal)
    (h : ∃ r ∈ st.tokens, r.mint = m) :
    (processMessage (createMsg m) t st).1.tokens = st.tokens ∧
    (processMessage (createMsg m) t st).1.rawTxs = st.rawTxs ++
      [{ mint := m, timestamp := t, traderPublicKey := JsonVal.null,
         tx_type := JsonVal.str "create", token_amount := 0, sol_amount := 0,
         new_token_balance := 0, bondingCurveKey := JsonVal.null,
         vTokensInBondingCurve := 0, vSolInBondingCurve := 0,
         marketCapSol := 0 }] ∧
    (processMessage (createMsg m) t st).2 = Outcome.ok := by
  have key : processMessage (createMsg m) t st =
      ({ st with
          rawTxs := st.rawTxs ++
            [{ mint := m, timestamp := t, traderPublicKey := JsonVal.null,
               tx_type := JsonVal.str "create", token_amount := 0,
               sol_amount := 0, new_token_balance := 0,
               bondingCurveKey := JsonVal.null, vTokensInBondingCurve := 0,
               vSolInBondingCurve := 0, marketCapSol := 0 }],
          pending := st.pending ++ [m],
          tokenCreations := st.tokenCreations + 1 }, Outcome.ok) := by
    simp [processMessage, createMsg, setKey, getKey, hasKey, extractFields,
      getNumField, pyTruthy, pyFloat, insertTokenOrIgnore, insertRawTx,
      subscribe_token, mainLoopForeignKeysOn, h]
    rfl
  rw [key]
  exact ⟨rfl, rfl, rfl⟩

/-- Witness for C9_duplicate_create: a second creation for mint A. -/
theorem C9_duplicate_create_witness :
    (∃ r ∈ [tokenRowA], r.mint = JsonVal.str "A") ∧
    (processMessage (createMsg (JsonVal.str "A")) 2
      { emptyState with tokens := [tokenRowA] }).1.tokens = [tokenRowA] :=
  ⟨by decide,
    (C9_duplicate_create { emptyState with tokens := [tokenRowA] } 2
      (JsonVal.str "A") (by decide)).1⟩

/-- C10 (counterexample): a creation message whose initialBuy is the
non-numeric string abc — on which float() raises — is nevertheless fully
processed: both an entity row (storing the string uncoerced) and a trade
event row are written, because initialBuy is never float-coerced. -/
theorem C10_counterexample :
    pyFloat (JsonVal.str "abc") = Except.error () ∧
    (processMessage msgC10 7 emptyState).1.tokens =
      [{ mint := JsonVal.str "ABC", timestamp := 7,
         initial_sol_liquidity := JsonVal.str "abc", name := JsonVal.str "",
         symbol := JsonVal.str "" }] ∧
    (processMessage msgC10 7 emptyState).1.rawTxs =
      [{ mint := JsonVal.str "ABC", timestamp := 7,
         traderPublicKey := JsonVal.null, tx_type := JsonVal.str "create",
         token_amount := 0, sol_amount := 0, new_token_balance := 0,
         bondingCurveKey := JsonVal.null, vTokensInBondingCurve := 0,
         vSolInBondingCurve := 0, marketCapSol := 0 }] :=
  ⟨rfl, rfl, rfl⟩

/-- C10 (amended): when extraction of the float-coerced fields (tokenAmount,
solAmount, newTokenBalance, vTokensInBondingCurve, vSolInBondingCurve,
marketCapSol) fails, the failure is raised before any store write, so the
whole message is dropped atomically — no entity row, no trade event row, no
counter change — and the loop continues; initialBuy is exempt because it is
never coerced. -/
theorem C10_atomic_drop (data : Message) (t : Int) (st : AppState)
    (hf : extractFields data = Except.error ()) :
    (processMessage data t st).1 = st ∧
    ((processMessage data t st).2 = Outcome.skippedValidation ∨
     (processMessage data t st).2 = Outcome.caughtError) := by
  simp only [processMessage]
  rw [extractFields_setKey_timestamp, hf]
  split
  · exact ⟨rfl, Or.inl rfl⟩
  · exact ⟨rfl, Or.inr rfl⟩

/-- Witness for C10_atomic_drop: a buy whose tokenAmount is the string abc. -/
theorem C10_atomic_drop_witness :
    extractFields msgC10buy = Except.error () ∧
    (processMessage msgC10buy 0 emptyState).1 = emptyState :=
  ⟨rfl, (C10_atomic_drop msgC10buy 0 emptyState rfl).1⟩
